import Mathlib

/-!
Verification of the STARS message-broker server (`src/server.rs`) against its
natural-language specification.

The Rust code is shallowly embedded: each server function becomes a Lean
function over an explicit state (`St`) holding the node directory, the policy
store (`StarsData`), the accumulated socket writes, socket shutdowns and
emitted events.  Socket writes are recorded as `(socket, success, line)`
triples; whether a write succeeds is supplied by the environment (`Env`),
which also supplies the results of filesystem reloads and the wall clock.

The repository modules `definitions.rs`, `utilities.rs` and `starsdata.rs`
are not part of the sources under inspection; functions from them
(`is_deny_checkcmd_deny`, `check_nodekey`, glob matching, host checks, list
formatting) are modelled from the specification and carry doc comments
saying so.  Everything else is translated directly from `src/server.rs`.

Rust `HashMap`s are modelled as association lists; loops over a `HashMap`
iterate in list order.
-/

set_option autoImplicit false

namespace Stars

/-- The character class `[a-zA-Z_0-9.\-]` used by the parsing regexes
`SEARCHFROM`, `SEARCHTO` and `SEARCHPARAM` in `server.rs`. -/
def isNameChar (c : Char) : Bool :=
  (('a' ≤ c && c ≤ 'z') || ('A' ≤ c && c ≤ 'Z') || ('0' ≤ c && c ≤ '9')
    || c = '_' || c = '.' || c = '-')

/-- ASCII whitespace as matched by the regex class `\s` and by Rust
whitespace splitting/trimming (ASCII fragment). -/
def isWsChar (c : Char) : Bool :=
  c = ' ' || c = '\t' || c = '\n' || c = '\x0d' || c = '\x0b' || c = '\x0c'

/-- `listPre pat s` is true when `pat` is a prefix of `s`
(Rust `str::starts_with` on the underlying characters). -/
def listPre : List Char → List Char → Bool
  | [], _ => true
  | _ :: _, [] => false
  | a :: as, b :: bs => a = b && listPre as bs

/-- `listIn pat s`: `pat` occurs as a contiguous substring of `s`
(Rust `str::contains`, and `is_match` of an unanchored literal regex such as
`SEARCHDISCONN`, `SEARCHFLGON`, `SEARCHFLGOFF`). -/
def listIn (pat : List Char) : List Char → Bool
  | [] => listPre pat []
  | c :: cs => listPre pat (c :: cs) || listIn pat cs

/-- Rust `str::contains` on strings. -/
def strContains (s pat : String) : Bool := listIn pat.data s.data

/-- Rust `str::starts_with` on strings. -/
def strStartsWith (s pat : String) : Bool := listPre pat.data s.data

/-- Replace every non-overlapping occurrence of `pat` (nonempty) in a
character list, scanning left to right; `fuel` bounds the recursion and is
instantiated with the length of the scanned list, which always suffices
because every step consumes at least one character. -/
def replaceFuel (pat rep : List Char) : Nat → List Char → List Char
  | 0, s => s
  | _ + 1, [] => []
  | fuel + 1, c :: cs =>
    if pat ≠ [] && listPre pat (c :: cs) then
      rep ++ replaceFuel pat rep fuel (cs.drop (pat.length - 1))
    else
      c :: replaceFuel pat rep fuel cs

/-- Rust `str::replace s pat rep`: replace all non-overlapping occurrences
of `pat` in `s` by `rep`, left to right. -/
def replaceAll (s pat rep : String) : String :=
  if pat.data = [] then s
  else String.mk (replaceFuel pat.data rep.data s.data.length s.data)

/-- Rust `str::split_whitespace` (ASCII fragment): maximal runs of
non-whitespace characters. `acc` holds the current run, reversed. -/
def splitWsAux : List Char → List Char → List (List Char)
  | acc, [] => if acc = [] then [] else [acc.reverse]
  | acc, c :: cs =>
    if isWsChar c then
      if acc = [] then splitWsAux [] cs else acc.reverse :: splitWsAux [] cs
    else
      splitWsAux (c :: acc) cs

/-- Rust `str::split_whitespace` on strings. -/
def splitWhitespace (s : String) : List String :=
  (splitWsAux [] s.data).map String.mk

/-- Rust `str::trim` (ASCII fragment): strip whitespace from both ends. -/
def strTrim (s : String) : String :=
  String.mk (((s.data.dropWhile isWsChar).reverse.dropWhile isWsChar).reverse)

/-- `tonodes.split(".")[0]`: the first dotted segment of a name. -/
def firstSeg (s : String) : String :=
  String.mk (s.data.takeWhile (fun c => c ≠ '.'))

/-- Search loop for `SEARCHFROM = ([a-zA-Z_0-9.\-]+)>`: find the first `>`
that is immediately preceded by at least one name character; the capture is
the maximal run of name characters ending just before that `>`.  `pre` holds
the characters already scanned, reversed. -/
def searchFromAux (pre : List Char) : List Char → Option (List Char)
  | [] => none
  | c :: cs =>
    if c = '>' then
      let run := pre.takeWhile isNameChar
      if run = [] then searchFromAux (c :: pre) cs
      else some run.reverse
    else searchFromAux (c :: pre) cs

/-- The capture of the first match of `SEARCHFROM` in `s`, if any. -/
def searchFrom (s : String) : Option String :=
  (searchFromAux [] s.data).map String.mk

/-- `SEARCHTO = ^([a-zA-Z_0-9.\-]+)\s*`: on success returns
`(capture, whole match)` where the capture is the maximal leading run of
name characters and the whole match additionally swallows following
whitespace. -/
def searchTo (s : String) : Option (String × String) :=
  let run := s.data.takeWhile isNameChar
  if run = [] then none
  else
    let rest := s.data.drop run.length
    some (String.mk run, String.mk (run ++ rest.takeWhile isWsChar))

/-- `SEARCHPARAM = ^([a-zA-Z_0-9.\-]+)` as a match test: the string starts
with a name character. -/
def searchParamIsMatch (s : String) : Bool :=
  match s.data with
  | [] => false
  | c :: _ => isNameChar c

/-- `SEARCHCMD1 = ^[^@]`: nonempty and the first character is not `@`. -/
def searchCmd1 (s : String) : Bool :=
  match s.data with
  | [] => false
  | c :: _ => c ≠ '@'

/-- `SEARCHCMD2 = ^[^_]`: nonempty and the first character is not `_`. -/
def searchCmd2 (s : String) : Bool :=
  match s.data with
  | [] => false
  | c :: _ => c ≠ '_'

/-- `SEARCHCMD3 = ^[_@]`: nonempty and the first character is `_` or `@`. -/
def searchCmd3 (s : String) : Bool :=
  match s.data with
  | [] => false
  | c :: _ => c = '_' || c = '@'

/-- Modelled from the spec: rule patterns are "glob-style over the three
fields" (§4.4); the concrete matcher lives in the missing `utilities.rs`.
`*` matches any sequence of characters, every other character matches
itself.  `fuel` bounds the recursion; the sum of both lengths plus one
always suffices since every step shrinks that sum. -/
def globFuel : Nat → List Char → List Char → Bool
  | 0, _, _ => false
  | fuel + 1, pat, s =>
    match pat, s with
    | [], [] => true
    | [], _ :: _ => false
    | p :: ps, t =>
      if p = '*' then
        globFuel fuel ps t ||
          (match t with
           | [] => false
           | _ :: cs => globFuel fuel (p :: ps) cs)
      else
        match t with
        | [] => false
        | c :: cs => p = c && globFuel fuel ps cs

/-- Modelled from the spec: glob-style pattern match over one field. -/
def globMatch (pat s : String) : Bool :=
  globFuel (pat.length + s.length + 1) pat.data s.data

/-- A command-permission rule binds `(from-pattern, to-pattern,
command-pattern)` (§3 Policy). -/
structure CmdRule where
  fromPat : String
  toPat : String
  cmdPat : String
deriving DecidableEq

/-- Modelled from the spec: `is_deny_checkcmd_deny` (missing
`utilities.rs`) — with a non-empty deny list, deny iff some rule matches the
`(from, to, command)` triple (§4.4). -/
def is_deny_checkcmd_deny (fr toN cmd : String) (rules : List CmdRule) : Bool :=
  rules.any (fun r => globMatch r.fromPat fr && globMatch r.toPat toN && globMatch r.cmdPat cmd)

/-- Modelled from the spec: `is_deny_checkcmd_allow` (missing
`utilities.rs`) — with a non-empty allow list, deny iff no rule matches
(§4.4). -/
def is_deny_checkcmd_allow (fr toN cmd : String) (rules : List CmdRule) : Bool :=
  !(rules.any (fun r => globMatch r.fromPat fr && globMatch r.toPat toN && globMatch r.cmdPat cmd))

/-- Modelled from the spec: `is_shutdowncmd_allow` (missing `utilities.rs`)
— `shutallow` rules list which originators may invoke shutdown (§3). -/
def is_shutdowncmd_allow (fromnode : String) (rules : List String) : Bool :=
  rules.any (fun r => globMatch r fromnode)

/-- A socket handle; the write side of a node's TCP connection. -/
abbrev Socket := Nat

/-- The node directory `NodeList` (name → socket), a `HashMap` in the
missing `definitions.rs`, modelled as an association list with unique
keys. -/
abbrev NodeList := List (String × Socket)

/-- `HashMap::get`. -/
def nlGet : NodeList → String → Option Socket
  | [], _ => none
  | (n, s) :: rest, name => if n = name then some s else nlGet rest name

/-- `HashMap::remove` (drops the entry with the given key). -/
def nlRemove : NodeList → String → NodeList
  | [], _ => []
  | p :: rest, name => if p.1 = name then nlRemove rest name else p :: nlRemove rest name

/-- `HashMap::insert` (replaces any existing entry). -/
def nlInsert (nl : NodeList) (name : String) (sock : Socket) : NodeList :=
  (name, sock) :: nlRemove nl name

/-- The key set of the directory. -/
def nlKeys (nl : NodeList) : List String := nl.map (fun p => p.1)

/-- An alias map (`aliasreal` or `realalias`), a `HashMap` modelled as an
association list. -/
abbrev AliasMap := List (String × String)

/-- `HashMap::get` on an alias map. -/
def amGet : AliasMap → String → Option String
  | [], _ => none
  | (k, v) :: rest, key => if k = key then some v else amGet rest key

/-- The Rust idiom `if let Some(v) = map.get(&x) { x = v.to_string() }`. -/
def resolveAlias (m : AliasMap) (s : String) : String :=
  match amGet m s with
  | some v => v
  | none => s

/-- The subscription table `nodes_flgon` (subscriber → set of watched
paths), a `HashMap<String, HashSet<String>>` modelled as an association
list of lists. -/
abbrev FlgonTable := List (String × List String)

/-- `HashMap::get` on the subscription table. -/
def ftGet : FlgonTable → String → Option (List String)
  | [], _ => none
  | (k, v) :: rest, key => if k = key then some v else ftGet rest key

/-- Replace the value stored under `key`. -/
def ftUpdate (ft : FlgonTable) (key : String) (val : List String) : FlgonTable :=
  ft.map (fun p => if p.1 = key then (p.1, val) else p)

/-- `HashMap::remove` on the subscription table. -/
def ftRemove : FlgonTable → String → FlgonTable
  | [], _ => []
  | p :: rest, key => if p.1 = key then ftRemove rest key else p :: ftRemove rest key

/-- The policy store `StarsData` (missing `starsdata.rs`), with the fields
`server.rs` uses: the two alias views, the allow/deny rule lists, the
shutdown permission and the subscription table.  Library paths and the
reconnect table are absorbed into the external checks. -/
structure StarsData where
  aliasreal : AliasMap
  realalias : AliasMap
  cmddeny : List CmdRule
  cmdallow : List CmdRule
  shutallow : List String
  nodes_flgon : FlgonTable
deriving DecidableEq

/-- The events of `events.rs`. -/
inductive ServerEvent where
  | nodeConnected (name : String)
  | nodeDisconnected (name : String)
  | messageRouted (fr toN : String)
deriving DecidableEq

/-- Server state threaded through the embedded functions: the node
directory, the policy store, the socket writes performed so far (socket,
success flag, line), the sockets shut down, the events sent on the observer
channel, and whether `process::exit` was reached. -/
structure St where
  nodes : NodeList
  sdata : StarsData
  writes : List (Socket × Bool × String)
  shutdowns : List Socket
  events : List ServerEvent
  exited : Bool
deriving DecidableEq

/-- The environment: which socket writes succeed, the wall clock
(`system_get_time`), the version string, and the results of the three
reload operations (filesystem contents are external). -/
structure Env where
  writeOk : Socket → Bool
  nowStr : String
  version : String
  loadPerm : Option (List CmdRule × List CmdRule)
  loadRecon : Bool
  loadAliases : Option (AliasMap × AliasMap)

/-- Modelled from the spec: the external handshake checks of the missing
`utilities.rs` — `check_reconnecttable` (reconnect rules against the new
connection), `check_term_and_host` (per-node host rules), and
`check_nodekey` (digest against the key file and nonce).  Each is an
abstract predicate, since the filesystem, peer address and hash are
external. -/
structure Checks where
  reconnectOk : String → Bool
  hostOk : String → Bool
  keyOk : String → String → Bool

/-- `sendtonode`: write `msg` to `sock`; on failure shut the socket down. -/
def sendtonode (env : Env) (sock : Socket) (msg : String) (st : St) : St :=
  if env.writeOk sock then
    { st with writes := st.writes ++ [(sock, env.writeOk sock, msg)] }
  else
    { st with writes := st.writes ++ [(sock, env.writeOk sock, msg)],
              shutdowns := st.shutdowns ++ [sock] }

/-- `sendtodebugger`: if a node named `Debugger` is in the directory,
mirror `msg` to it; on failure shut its socket down and remove it from the
directory. -/
def sendtodebugger (env : Env) (msg : String) (st : St) : St :=
  match nlGet st.nodes "Debugger" with
  | none => st
  | some sock =>
    if env.writeOk sock then
      { st with writes := st.writes ++ [(sock, env.writeOk sock, msg)] }
    else
      { st with writes := st.writes ++ [(sock, env.writeOk sock, msg)],
                shutdowns := st.shutdowns ++ [sock],
                nodes := nlRemove st.nodes "Debugger" }

/-- `writemsg`: write to the target, then mirror to the Debugger. -/
def writemsg (env : Env) (sock : Socket) (msg : String) (st : St) : St :=
  sendtodebugger env msg (sendtonode env sock msg st)

/-- The notification loop shared by `addnode`, `delnode` and
`system_disconnect`: for every `(subscriber, watched)` entry whose watched
set contains `nodeName` exactly, write
`<nodeName>><subscriber> <payload>\n` to the node named by the subscriber's
first dotted segment. -/
def flgonLoopFull (env : Env) (nodeName payload : String) : FlgonTable → St → St
  | [], st => st
  | kv :: rest, st =>
    let st1 :=
      if kv.2.contains nodeName then
        match nlGet st.nodes (firstSeg kv.1) with
        | some sock =>
          writemsg env sock (nodeName ++ ">" ++ kv.1 ++ " " ++ payload ++ "\n") st
        | none => st
      else st
    flgonLoopFull env nodeName payload rest st1

/-- The loop of `system_event`: same match, but the delivered line names
the subscriber's first dotted segment rather than the full subscriber
name. -/
def flgonLoopHead (env : Env) (frn cmd : String) : FlgonTable → St → St
  | [], st => st
  | kv :: rest, st =>
    let st1 :=
      if kv.2.contains frn then
        match nlGet st.nodes (firstSeg kv.1) with
        | some sock =>
          writemsg env sock (frn ++ ">" ++ firstSeg kv.1 ++ " " ++ cmd ++ "\n") st
        | none => st
      else st
    flgonLoopHead env frn cmd rest st1

/-- `system_event`: resolve the sender through `aliasreal`, then broadcast
the event payload to the matching subscribers. -/
def system_event (env : Env) (node cmd : String) (st : St) : St :=
  let frn := resolveAlias st.sdata.aliasreal node
  flgonLoopHead env frn cmd st.sdata.nodes_flgon st

/-- `delnode`: remove the node from the directory, emit
`NodeDisconnected`, shut its socket, drop its own subscriptions, resolve
its name through `realalias`, and notify matching subscribers with
`_Disconnected`. -/
def delnode (env : Env) (node : String) (st : St) : St :=
  match nlGet st.nodes node with
  | none => st
  | some s =>
    let st1 : St := { st with nodes := nlRemove st.nodes node }
    let st2 : St := { st1 with events := st1.events ++ [ServerEvent.nodeDisconnected node] }
    let st3 : St := { st2 with shutdowns := st2.shutdowns ++ [s] }
    let st4 : St :=
      { st3 with sdata := { st3.sdata with nodes_flgon := ftRemove st3.sdata.nodes_flgon node } }
    let nodeName := resolveAlias st4.sdata.realalias node
    flgonLoopFull env nodeName "_Disconnected" st4.sdata.nodes_flgon st4

/-- `system_disconnect`: with no leading name character in the argument,
reply the parameter error; otherwise resolve the victim through
`aliasreal`, reply `is down` if absent, else acknowledge, remove the
victim, shut its socket, drop its subscriptions and notify matching
subscribers with `_Disconnected` (no `NodeDisconnected` event here). -/
def system_disconnect (env : Env) (sock : Socket) (fromnode cmd : String) (st : St) : St :=
  if !searchParamIsMatch cmd then
    writemsg env sock ("System>" ++ fromnode ++ " @disconnect Er: Parameter is not enough.\n") st
  else
    let victim := resolveAlias st.sdata.aliasreal cmd
    match nlGet st.nodes victim with
    | none =>
      writemsg env sock
        ("System>" ++ fromnode ++ " @disconnect Er: Node " ++ victim ++ " is down.\n") st
    | some _ =>
      let st1 := writemsg env sock ("System>" ++ fromnode ++ " @disconnect " ++ victim ++ ".\n") st
      match nlGet st1.nodes victim with
      | none => st1
      | some s =>
        let st2 : St := { st1 with
                          nodes := nlRemove st1.nodes victim,
                          shutdowns := st1.shutdowns ++ [s] }
        let st3 : St :=
          { st2 with
            sdata := { st2.sdata with nodes_flgon := ftRemove st2.sdata.nodes_flgon victim } }
        let nodeName := resolveAlias st3.sdata.realalias victim
        flgonLoopFull env nodeName "_Disconnected" st3.sdata.nodes_flgon st3

/-- `system_flgon`: register `(fromnode, cmd)` in the subscription table;
note that the parameter error is tagged `@disconnect` in the source. -/
def system_flgon (env : Env) (sock : Socket) (fromnode cmd : String) (st : St) : St :=
  if !searchParamIsMatch cmd then
    writemsg env sock ("System>" ++ fromnode ++ " @disconnect Er: Parameter is not enough.\n") st
  else
    match ftGet st.sdata.nodes_flgon fromnode with
    | some flgList =>
      if flgList.contains cmd then
        writemsg env sock
          ("System>" ++ fromnode ++ " @flgon Er: Node " ++ cmd ++ " is allready in the list.\n") st
      else
        let st1 : St :=
          { st with
            sdata := { st.sdata with
                       nodes_flgon := ftUpdate st.sdata.nodes_flgon fromnode (cmd :: flgList) } }
        writemsg env sock
          ("System>" ++ fromnode ++ " @flgon Node " ++ cmd ++ " has been registered.\n") st1
    | none =>
      let st1 : St :=
        { st with
          sdata := { st.sdata with
                     nodes_flgon := (fromnode, [cmd]) :: st.sdata.nodes_flgon } }
      writemsg env sock
        ("System>" ++ fromnode ++ " @flgon Node " ++ cmd ++ " has been registered.\n") st1

/-- `system_flgoff`: remove `(fromnode, cmd)` from the subscription table;
the parameter error is tagged `@disconnect` in the source. -/
def system_flgoff (env : Env) (sock : Socket) (fromnode cmd : String) (st : St) : St :=
  if !searchParamIsMatch cmd then
    writemsg env sock ("System>" ++ fromnode ++ " @disconnect Er: Parameter is not enough.\n") st
  else
    match ftGet st.sdata.nodes_flgon fromnode with
    | some flgList =>
      if flgList.contains cmd then
        let st1 : St :=
          { st with
            sdata := { st.sdata with
                       nodes_flgon := ftUpdate st.sdata.nodes_flgon fromnode (flgList.erase cmd) } }
        writemsg env sock
          ("System>" ++ fromnode ++ " @flgoff Node " ++ cmd ++ " has been removed.\n") st1
      else
        writemsg env sock
          ("System>" ++ fromnode ++ " @flgoff Er: Node " ++ cmd ++ " is not in the list.\n") st
    | none =>
      writemsg env sock ("System>" ++ fromnode ++ " @flgoff Er: List is void.\n") st

/-- The broadcast loop of `system_shutdown`: writes `SYSTEMSHUTDOWN` to
each node via `sendtonode` (no Debugger mirror) and shuts each socket. -/
def shutdownLoop (env : Env) : NodeList → St → St
  | [], st => st
  | (name, s) :: rest, st =>
    let st1 := sendtonode env s ("System>" ++ name ++ " SYSTEMSHUTDOWN\n") st
    let st2 : St := { st1 with shutdowns := st1.shutdowns ++ [s] }
    shutdownLoop env rest st2

/-- `system_shutdown`: broadcast to every node, then `process::exit(0)`. -/
def system_shutdown (env : Env) (st : St) : St :=
  let st1 := shutdownLoop env st.nodes st
  { st1 with exited := true }

/-- Modelled from the spec: `system_list_nodes` (missing `utilities.rs`) —
"space-separated names currently in directory" (§4.5). -/
def system_list_nodes (nl : NodeList) : String :=
  String.intercalate " " (nlKeys nl)

/-- Modelled from the spec: `system_list_aliases` (missing `utilities.rs`)
— "the alias table as `alias=real alias=real`" (§4.5). -/
def system_list_aliases (sd : StarsData) : String :=
  String.intercalate " " (sd.aliasreal.map (fun p => p.1 ++ "=" ++ p.2))

/-- `system_commands`: the System virtual node.  Events (leading `_`) are
broadcast; `disconnect `, `flgon ` and `flgoff ` are recognized by
substring search anywhere in the payload with every occurrence of the
`<verb> ` text deleted to form the argument; all remaining verbs are
recognized only when the payload equals the verb exactly. -/
def system_commands (env : Env) (node : String) (sock : Socket) (fromnode cmd : String)
    (st : St) : St :=
  if strStartsWith cmd "_" then
    system_event env node cmd st
  else if strContains cmd "disconnect " then
    system_disconnect env sock fromnode (replaceAll cmd "disconnect " "") st
  else if strContains cmd "flgon " then
    system_flgon env sock fromnode (replaceAll cmd "flgon " "") st
  else if strContains cmd "flgoff " then
    system_flgoff env sock fromnode (replaceAll cmd "flgoff " "") st
  else if cmd = "loadpermission" then
    match env.loadPerm with
    | some da =>
      let st1 : St := { st with sdata := { st.sdata with cmddeny := da.1, cmdallow := da.2 } }
      writemsg env sock
        ("System>" ++ fromnode ++ " @loadpermission Command permission list has been loaded.\n") st1
    | none =>
      writemsg env sock
        ("System>" ++ fromnode
          ++ " @loadpermission Er: Command permission list has been NOT loaded!\n") st
  else if cmd = "loadreconnectablepermission" then
    if env.loadRecon then
      writemsg env sock
        ("System>" ++ fromnode
          ++ " @loadreconnectablepermission Reconnectable permission list has been loaded.\n") st
    else
      writemsg env sock
        ("System>" ++ fromnode
          ++ " @loadreconnectablepermission Er: Reconnectable permission list has been NOT loaded!\n")
        st
  else if cmd = "loadaliases" then
    match env.loadAliases with
    | some ar =>
      let st1 : St := { st with sdata := { st.sdata with aliasreal := ar.1, realalias := ar.2 } }
      writemsg env sock ("System>" ++ fromnode ++ " @loadaliases Aliases has been loaded.\n") st1
    | none =>
      writemsg env sock
        ("System>" ++ fromnode ++ " @loadaliases Er: Aliases has been NOT loaded!\n") st
  else if cmd = "listaliases" then
    writemsg env sock
      ("System>" ++ fromnode ++ " @listaliases " ++ system_list_aliases st.sdata ++ "\n") st
  else if cmd = "listnodes" then
    writemsg env sock
      ("System>" ++ fromnode ++ " @listnodes " ++ system_list_nodes st.nodes ++ "\n") st
  else if cmd = "getversion" then
    writemsg env sock
      ("System>" ++ fromnode ++ " @getversion Version: " ++ env.version ++ " (Rust Server)\n") st
  else if cmd = "gettime" then
    writemsg env sock ("System>" ++ fromnode ++ " @gettime " ++ env.nowStr ++ "\n") st
  else if cmd = "hello" then
    writemsg env sock ("System>" ++ fromnode ++ " @hello Nice to meet you.\n") st
  else if cmd = "help" then
    writemsg env sock
      ("System>" ++ fromnode
        ++ " @help flgon flgoff loadaliases listaliases loadpermission loadreconnectablepermission listnodes shutdown getversion gettime hello disconnect\n")
      st
  else if cmd = "shutdown" then
    if !st.sdata.shutallow.isEmpty && is_shutdowncmd_allow fromnode st.sdata.shutallow then
      system_shutdown env st
    else
      writemsg env sock ("System>" ++ fromnode ++ " @shutdown Er: Command denied.\n") st
  else
    writemsg env sock
      ("System>" ++ fromnode ++ " @" ++ cmd
        ++ " Er: Command is not found or parameter is not enough!\n") st

/-- The parsing prefix of `sendmes`: apply `SEARCHFROM` (originator
override; the matched `<name>>` text is deleted everywhere), then
`SEARCHTO` (destination; the matched prefix text is deleted everywhere).
Returns the displayed originator together with `some (to_address, payload)`
on success. -/
def parseFrame (node msg : String) : String × Option (String × String) :=
  let step1 :=
    match searchFrom msg with
    | none => (node, msg)
    | some cap => (cap, replaceAll msg (cap ++ ">") "")
  match searchTo step1.2 with
  | none => (step1.1, none)
  | some cw => (step1.1, some (cw.1, replaceAll step1.2 cw.2 ""))

/-- The policy decision of `sendmes`: the payload is policy-checked when
its first character is not `@` (`SEARCHCMD1`), and denied when the deny
list is non-empty and matches, or the allow list is non-empty and fails to
match.  The authenticated socket name (not the displayed originator) is the
`from` field. -/
def routeDenied (node tonodes buf : String) (sd : StarsData) : Bool :=
  searchCmd1 buf &&
    ((!sd.cmddeny.isEmpty && is_deny_checkcmd_deny node tonodes buf sd.cmddeny) ||
     (!sd.cmdallow.isEmpty && is_deny_checkcmd_allow node tonodes buf sd.cmdallow))

/-- The delivery tail of `sendmes`: resolve the displayed originator
through `aliasreal`, then deliver to the directory entry of the first
dotted segment, or reply `is down` for command-class payloads. -/
def deliverOrDown (env : Env) (sock : Socket) (fromnode0 tonodes buf : String) (st : St) : St :=
  let fromnode := resolveAlias st.sdata.aliasreal fromnode0
  let tonode := firstSeg tonodes
  match nlGet st.nodes tonode with
  | some tsock =>
    let st1 := writemsg env tsock (fromnode ++ ">" ++ tonodes ++ " " ++ buf ++ "\n") st
    { st1 with events := st1.events ++ [ServerEvent.messageRouted fromnode tonodes] }
  | none =>
    if !searchCmd3 buf then
      writemsg env sock
        ("System>" ++ fromnode ++ " @" ++ buf ++ " Er: " ++ tonode ++ " is down.\n") st
    else st

/-- The routing core of `sendmes` after parsing: destination alias
resolution, policy filter, then System dispatch (`tonode.contains
("System")`) or delivery. -/
def route (env : Env) (node : String) (sock : Socket) (fromnode tonodes0 buf : String)
    (st : St) : St :=
  let tonodes := resolveAlias st.sdata.aliasreal tonodes0
  if routeDenied node tonodes buf st.sdata then
    if searchCmd2 buf then
      writemsg env sock ("System>" ++ fromnode ++ " @" ++ buf ++ " Er: Command denied.\n") st
    else st
  else if strContains (firstSeg tonodes) "System" then
    system_commands env node sock fromnode buf st
  else
    deliverOrDown env sock fromnode tonodes buf st

/-- `sendmes`: parse the frame; on parse failure reply
`System><fromnode>> @\n`; otherwise route. -/
def sendmes (env : Env) (node : String) (sock : Socket) (msg : String) (st : St) : St :=
  match parseFrame node msg with
  | (fromnode, none) => writemsg env sock ("System>" ++ fromnode ++ "> @\n") st
  | (fromnode, some td) => route env node sock fromnode td.1 td.2 st

/-- The tail of `addnode` after the optional reconnect eviction: host
check, key check, then the success path — `Ok:` line, directory insert,
`NodeConnected`, `realalias` resolution and `_Connected` notifications.
Returns the (possibly alias-resolved) node name on success. -/
def addnodeChecks (env : Env) (checks : Checks) (sock : Socket) (node idmess : String)
    (st : St) : Option String × St :=
  if !checks.hostOk node then
    (none, writemsg env sock ("System> Er: Bad host for " ++ node ++ "\n") st)
  else if !checks.keyOk node idmess then
    (none, writemsg env sock "System> Er: Bad node name or key\n" st)
  else
    let st1 := writemsg env sock ("System>" ++ node ++ " Ok:\n") st
    let st2 : St := { st1 with nodes := nlInsert st1.nodes node sock }
    let st3 : St := { st2 with events := st2.events ++ [ServerEvent.nodeConnected node] }
    let nodeName := resolveAlias st3.sdata.realalias node
    (some nodeName, flgonLoopFull env nodeName "_Connected" st3.sdata.nodes_flgon st3)

/-- `addnode`: the handshake reply must split into exactly two whitespace
tokens; a taken name consults the reconnect rules (evict or refuse); then
the host and key checks and the success path. -/
def addnode (env : Env) (checks : Checks) (sock : Socket) (msg : String)
    (st : St) : Option String × St :=
  let node_id := splitWhitespace msg
  if node_id.length ≠ 2 then (none, st)
  else
    let node := node_id.getD 0 ""
    let idmess := node_id.getD 1 ""
    match nlGet st.nodes node with
    | some _ =>
      if !checks.reconnectOk node then
        (none, writemsg env sock ("System> Er: " ++ node ++ " already exists.\n") st)
      else
        addnodeChecks env checks sock node idmess (delnode env node st)
    | none => addnodeChecks env checks sock node idmess st

/-- Outcome of one accepted connection's handshake in `run_server`. -/
inductive HandshakeOutcome where
  | closed
  | session (name : String)
deriving DecidableEq

/-- The post-nonce portion of `run_server`'s accept loop: an empty reply is
a silent close; otherwise the trimmed reply goes to `addnode`, and on
failure the stream is shut down. -/
def handshakeStep (env : Env) (checks : Checks) (sock : Socket) (rmsg : String)
    (st : St) : HandshakeOutcome × St :=
  if rmsg = "" then
    (HandshakeOutcome.closed, { st with shutdowns := st.shutdowns ++ [sock] })
  else
    match addnode env checks sock (strTrim rmsg) st with
    | (some name, st1) => (HandshakeOutcome.session name, st1)
    | (none, st1) => (HandshakeOutcome.closed, { st1 with shutdowns := st1.shutdowns ++ [sock] })

/-! ### Concrete states used by the counterexamples and witnesses -/

/-- An empty policy store: no aliases, no rules, no subscriptions. -/
def sdEmpty : StarsData :=
  { aliasreal := [], realalias := [], cmddeny := [], cmdallow := [],
    shutallow := [], nodes_flgon := [] }

/-- A fresh server state with the given directory and policy store. -/
def stOf (nl : NodeList) (sd : StarsData) : St :=
  { nodes := nl, sdata := sd, writes := [], shutdowns := [], events := [], exited := false }

/-- An environment where every socket write succeeds. -/
def env0 : Env :=
  { writeOk := fun _ => true, nowStr := "2026/10/12 00:00:00", version := "1.0",
    loadPerm := none, loadRecon := false, loadAliases := none }

/-- An environment where writes to socket 9 fail and all others succeed. -/
def envD : Env := { env0 with writeOk := fun s => decide (s ≠ 9) }

/-- Handshake checks that all pass (valid host and digest, reconnect
allowed). -/
def checksTrue : Checks :=
  { reconnectOk := fun _ => true, hostOk := fun _ => true, keyOk := fun _ _ => true }

/-- A deny list with a single catch-all rule: every command-class triple is
denied. -/
def sdDenyAll : StarsData := { sdEmpty with cmddeny := [⟨"*", "*", "*"⟩] }

/-- Alias table with one pair: alias `Alice` for the real node `A`. -/
def sdAlias : StarsData :=
  { sdEmpty with aliasreal := [("Alice", "A")], realalias := [("A", "Alice")] }

/-! ### Helper lemmas about the write primitives and the directory -/

theorem nlGet_nlRemove_self (nl : NodeList) (n : String) : nlGet (nlRemove nl n) n = none := by
  induction nl with
  | nil => rfl
  | cons p rest ih =>
    by_cases h : p.1 = n
    · simp [nlRemove, h, ih]
    · simp [nlRemove, h, nlGet, ih]

theorem nlGet_nlRemove_ne (nl : NodeList) (n m : String) (h : m ≠ n) :
    nlGet (nlRemove nl n) m = nlGet nl m := by
  induction nl with
  | nil => rfl
  | cons p rest ih =>
    by_cases hp : p.1 = n
    · have hpm : p.1 ≠ m := by rw [hp]; exact fun hh => h hh.symm
      have hnm : n ≠ m := fun hh => h hh.symm
      simp [nlRemove, hp, nlGet, hpm, hnm, ih]
    · simp [nlRemove, hp, nlGet, ih]

theorem nlGet_nlInsert_self (nl : NodeList) (n : String) (s : Socket) :
    nlGet (nlInsert nl n s) n = some s := by
  simp [nlInsert, nlGet]

theorem nlGet_nlInsert_ne (nl : NodeList) (n m : String) (s : Socket) (h : m ≠ n) :
    nlGet (nlInsert nl n s) m = nlGet nl m := by
  have hnm : n ≠ m := fun hh => h hh.symm
  simp [nlInsert, nlGet, hnm, nlGet_nlRemove_ne nl n m h]

theorem nlKeys_nlRemove_subset (nl : NodeList) (n : String) :
    nlKeys (nlRemove nl n) ⊆ nlKeys nl := by
  induction nl with
  | nil => exact fun x hx => hx
  | cons p rest ih =>
    by_cases h : p.1 = n
    · simp only [nlRemove, h, if_pos]
      exact fun x hx => List.mem_cons_of_mem _ (ih hx)
    · simp only [nlRemove, h, if_neg, not_false_iff, nlKeys, List.map_cons]
      intro x hx
      rcases List.mem_cons.1 hx with h1 | h2
      · exact List.mem_cons.2 (Or.inl h1)
      · exact List.mem_cons.2 (Or.inr (ih h2))

theorem sendtonode_nodes (env : Env) (sock : Socket) (msg : String) (st : St) :
    (sendtonode env sock msg st).nodes = st.nodes := by
  simp only [sendtonode]; split <;> rfl

theorem sendtonode_sdata (env : Env) (sock : Socket) (msg : String) (st : St) :
    (sendtonode env sock msg st).sdata = st.sdata := by
  simp only [sendtonode]; split <;> rfl

theorem sendtonode_events (env : Env) (sock : Socket) (msg : String) (st : St) :
    (sendtonode env sock msg st).events = st.events := by
  simp only [sendtonode]; split <;> rfl

theorem sendtonode_writes (env : Env) (sock : Socket) (msg : String) (st : St) :
    (sendtonode env sock msg st).writes = st.writes ++ [(sock, env.writeOk sock, msg)] := by
  simp only [sendtonode]; split <;> rfl

theorem sendtodebugger_of_none (env : Env) (msg : String) (st : St)
    (h : nlGet st.nodes "Debugger" = none) : sendtodebugger env msg st = st := by
  unfold sendtodebugger; rw [h]

theorem sendtodebugger_sdata (env : Env) (msg : String) (st : St) :
    (sendtodebugger env msg st).sdata = st.sdata := by
  unfold sendtodebugger
  split
  · rfl
  · split <;> rfl

theorem sendtodebugger_events (env : Env) (msg : String) (st : St) :
    (sendtodebugger env msg st).events = st.events := by
  unfold sendtodebugger
  split
  · rfl
  · split <;> rfl

theorem sendtodebugger_writes_mono (env : Env) (msg : String) (st : St)
    (x : Socket × Bool × String) (h : x ∈ st.writes) : x ∈ (sendtodebugger env msg st).writes := by
  unfold sendtodebugger
  split
  · exact h
  · split <;> · simp only [List.mem_append]; exact Or.inl h

theorem sendtodebugger_keys_subset (env : Env) (msg : String) (st : St) :
    nlKeys (sendtodebugger env msg st).nodes ⊆ nlKeys st.nodes := by
  unfold sendtodebugger
  split
  · exact fun x hx => hx
  · split
    · exact fun x hx => hx
    · exact nlKeys_nlRemove_subset st.nodes "Debugger"

theorem writemsg_sdata (env : Env) (sock : Socket) (msg : String) (st : St) :
    (writemsg env sock msg st).sdata = st.sdata := by
  unfold writemsg
  rw [sendtodebugger_sdata, sendtonode_sdata]

theorem writemsg_events (env : Env) (sock : Socket) (msg : String) (st : St) :
    (writemsg env sock msg st).events = st.events := by
  unfold writemsg
  rw [sendtodebugger_events, sendtonode_events]

theorem writemsg_nodes_of_none (env : Env) (sock : Socket) (msg : String) (st : St)
    (h : nlGet st.nodes "Debugger" = none) : (writemsg env sock msg st).nodes = st.nodes := by
  unfold writemsg
  have h2 : nlGet (sendtonode env sock msg st).nodes "Debugger" = none := by
    rw [sendtonode_nodes]; exact h
  rw [sendtodebugger_of_none _ _ _ h2, sendtonode_nodes]

theorem writemsg_writes_of_none (env : Env) (sock : Socket) (msg : String) (st : St)
    (h : nlGet st.nodes "Debugger" = none) :
    (writemsg env sock msg st).writes = st.writes ++ [(sock, env.writeOk sock, msg)] := by
  unfold writemsg
  have h2 : nlGet (sendtonode env sock msg st).nodes "Debugger" = none := by
    rw [sendtonode_nodes]; exact h
  rw [sendtodebugger_of_none _ _ _ h2, sendtonode_writes]

theorem writemsg_writes_mono (env : Env) (sock : Socket) (msg : String) (st : St)
    (x : Socket × Bool × String) (h : x ∈ st.writes) : x ∈ (writemsg env sock msg st).writes := by
  unfold writemsg
  refine sendtodebugger_writes_mono _ _ _ _ ?_
  rw [sendtonode_writes]
  simp only [List.mem_append]
  exact Or.inl h

theorem writemsg_keys_subset (env : Env) (sock : Socket) (msg : String) (st : St) :
    nlKeys (writemsg env sock msg st).nodes ⊆ nlKeys st.nodes := by
  unfold writemsg
  have h := sendtodebugger_keys_subset env msg (sendtonode env sock msg st)
  rw [sendtonode_nodes] at h
  exact h

/-! ### Helper lemmas about the notification loops -/

theorem flgonLoopFull_sdata (env : Env) (nm pay : String) (ft : FlgonTable) :
    ∀ st : St, (flgonLoopFull env nm pay ft st).sdata = st.sdata := by
  induction ft with
  | nil => intro st; rfl
  | cons kv rest ih =>
    intro st
    unfold flgonLoopFull
    rw [ih]
    by_cases h : kv.2.contains nm
    · simp only [h, if_pos]
      cases hn : nlGet st.nodes (firstSeg kv.1) with
      | none => rfl
      | some sock => exact writemsg_sdata _ _ _ _
    · simp only [h, if_neg, Bool.false_eq_true, not_false_iff]

theorem flgonLoopFull_events (env : Env) (nm pay : String) (ft : FlgonTable) :
    ∀ st : St, (flgonLoopFull env nm pay ft st).events = st.events := by
  induction ft with
  | nil => intro st; rfl
  | cons kv rest ih =>
    intro st
    unfold flgonLoopFull
    rw [ih]
    by_cases h : kv.2.contains nm
    · simp only [h, if_pos]
      cases hn : nlGet st.nodes (firstSeg kv.1) with
      | none => rfl
      | some sock => exact writemsg_events _ _ _ _
    · simp only [h, if_neg, Bool.false_eq_true, not_false_iff]

theorem flgonLoopFull_nodes_of_none (env : Env) (nm pay : String) (ft : FlgonTable) :
    ∀ st : St, nlGet st.nodes "Debugger" = none →
      (flgonLoopFull env nm pay ft st).nodes = st.nodes := by
  induction ft with
  | nil => intro st _; rfl
  | cons kv rest ih =>
    intro st hdbg
    unfold flgonLoopFull
    by_cases h : kv.2.contains nm
    · simp only [h, if_pos]
      cases hn : nlGet st.nodes (firstSeg kv.1) with
      | none => exact ih st hdbg
      | some sock =>
        have hw := writemsg_nodes_of_none env sock (nm ++ ">" ++ kv.1 ++ " " ++ pay ++ "\n") st hdbg
        have hdbg2 : nlGet (writemsg env sock (nm ++ ">" ++ kv.1 ++ " " ++ pay ++ "\n") st).nodes
            "Debugger" = none := by rw [hw]; exact hdbg
        rw [ih _ hdbg2, hw]
    · simp only [h, if_neg, Bool.false_eq_true, not_false_iff]
      exact ih st hdbg

theorem flgonLoopFull_writes_mono (env : Env) (nm pay : String) (ft : FlgonTable) :
    ∀ (st : St) (x : Socket × Bool × String), x ∈ st.writes →
      x ∈ (flgonLoopFull env nm pay ft st).writes := by
  induction ft with
  | nil => intro st x hx; exact hx
  | cons kv rest ih =>
    intro st x hx
    unfold flgonLoopFull
    by_cases h : kv.2.contains nm
    · simp only [h, if_pos]
      cases hn : nlGet st.nodes (firstSeg kv.1) with
      | none => exact ih st x hx
      | some sock => exact ih _ x (writemsg_writes_mono _ _ _ _ _ hx)
    · simp only [h, if_neg, Bool.false_eq_true, not_false_iff]
      exact ih st x hx

theorem flgonLoopFull_mem (env : Env) (nm pay : String) (ft : FlgonTable) :
    ∀ (st : St) (u : String) (ws : List String) (usock : Socket),
      nlGet st.nodes "Debugger" = none → (u, ws) ∈ ft → ws.contains nm = true →
      nlGet st.nodes (firstSeg u) = some usock →
      (usock, env.writeOk usock, nm ++ ">" ++ u ++ " " ++ pay ++ "\n")
        ∈ (flgonLoopFull env nm pay ft st).writes := by
  induction ft with
  | nil => intro st u ws usock _ hmem _ _; cases hmem
  | cons kv rest ih =>
    intro st u ws usock hdbg hmem hc hs
    rcases List.mem_cons.1 hmem with hhead | htail
    · unfold flgonLoopFull
      have hkv2 : kv.2.contains nm = true := by rw [← hhead]; exact hc
      have hkv1 : kv.1 = u := by rw [← hhead]
      simp only [hkv2, if_pos, hkv1, hs]
      refine flgonLoopFull_writes_mono env nm pay rest _ _ ?_
      rw [writemsg_writes_of_none env usock _ st hdbg]
      simp
    · unfold flgonLoopFull
      by_cases h : kv.2.contains nm
      · simp only [h, if_pos]
        cases hn : nlGet st.nodes (firstSeg kv.1) with
        | none => exact ih st u ws usock hdbg htail hc hs
        | some sock =>
          have hw := writemsg_nodes_of_none env sock (nm ++ ">" ++ kv.1 ++ " " ++ pay ++ "\n") st
            hdbg
          refine ih _ u ws usock ?_ htail hc ?_
          · rw [hw]; exact hdbg
          · rw [hw]; exact hs
      · simp only [h, if_neg, Bool.false_eq_true, not_false_iff]
        exact ih st u ws usock hdbg htail hc hs

theorem flgonLoopFull_keys_subset (env : Env) (nm pay : String) (ft : FlgonTable) :
    ∀ st : St, nlKeys (flgonLoopFull env nm pay ft st).nodes ⊆ nlKeys st.nodes := by
  induction ft with
  | nil => intro st; exact fun x hx => hx
  | cons kv rest ih =>
    intro st
    unfold flgonLoopFull
    by_cases h : kv.2.contains nm
    · simp only [h, if_pos]
      cases hn : nlGet st.nodes (firstSeg kv.1) with
      | none => exact ih st
      | some sock => exact List.Subset.trans (ih _) (writemsg_keys_subset _ _ _ _)
    · simp only [h, if_neg, Bool.false_eq_true, not_false_iff]
      exact ih st

theorem flgonLoopHead_keys_subset (env : Env) (frn cmd : String) (ft : FlgonTable) :
    ∀ st : St, nlKeys (flgonLoopHead env frn cmd ft st).nodes ⊆ nlKeys st.nodes := by
  induction ft with
  | nil => intro st; exact fun x hx => hx
  | cons kv rest ih =>
    intro st
    unfold flgonLoopHead
    by_cases h : kv.2.contains frn
    · simp only [h, if_pos]
      cases hn : nlGet st.nodes (firstSeg kv.1) with
      | none => exact ih st
      | some sock => exact List.Subset.trans (ih _) (writemsg_keys_subset _ _ _ _)
    · simp only [h, if_neg, Bool.false_eq_true, not_false_iff]
      exact ih st

theorem shutdownLoop_nodes (env : Env) (nl : NodeList) :
    ∀ st : St, (shutdownLoop env nl st).nodes = st.nodes := by
  induction nl with
  | nil => intro st; rfl
  | cons p rest ih =>
    intro st
    unfold shutdownLoop
    rw [ih, sendtonode_nodes]

/-! ### Key-set monotonicity of the routing path -/

theorem system_event_keys_subset (env : Env) (node cmd : String) (st : St) :
    nlKeys (system_event env node cmd st).nodes ⊆ nlKeys st.nodes := by
  unfold system_event
  exact flgonLoopHead_keys_subset _ _ _ _ _

theorem system_disconnect_keys_subset (env : Env) (sock : Socket) (fromnode cmd : String)
    (st : St) : nlKeys (system_disconnect env sock fromnode cmd st).nodes ⊆ nlKeys st.nodes := by
  unfold system_disconnect
  split
  · exact writemsg_keys_subset _ _ _ _
  · dsimp only
    split
    · exact writemsg_keys_subset _ _ _ _
    · split
      · exact writemsg_keys_subset _ _ _ _
      · refine List.Subset.trans (flgonLoopFull_keys_subset _ _ _ _ _) ?_
        refine List.Subset.trans (nlKeys_nlRemove_subset _ _) ?_
        exact writemsg_keys_subset _ _ _ _

theorem system_flgon_keys_subset (env : Env) (sock : Socket) (fromnode cmd : String)
    (st : St) : nlKeys (system_flgon env sock fromnode cmd st).nodes ⊆ nlKeys st.nodes := by
  unfold system_flgon
  split
  · exact writemsg_keys_subset _ _ _ _
  · split
    · split
      · exact writemsg_keys_subset _ _ _ _
      · exact writemsg_keys_subset _ _ _ _
    · exact writemsg_keys_subset _ _ _ _

theorem system_flgoff_keys_subset (env : Env) (sock : Socket) (fromnode cmd : String)
    (st : St) : nlKeys (system_flgoff env sock fromnode cmd st).nodes ⊆ nlKeys st.nodes := by
  unfold system_flgoff
  split
  · exact writemsg_keys_subset _ _ _ _
  · split
    · split
      · exact writemsg_keys_subset _ _ _ _
      · exact writemsg_keys_subset _ _ _ _
    · exact writemsg_keys_subset _ _ _ _

theorem system_shutdown_keys_subset (env : Env) (st : St) :
    nlKeys (system_shutdown env st).nodes ⊆ nlKeys st.nodes := by
  unfold system_shutdown
  intro x hx
  have h := shutdownLoop_nodes env st.nodes st
  simp only [h] at hx
  exact hx

theorem system_commands_keys_subset (env : Env) (node : String) (sock : Socket)
    (fromnode cmd : String) (st : St) :
    nlKeys (system_commands env node sock fromnode cmd st).nodes ⊆ nlKeys st.nodes := by
  unfold system_commands
  by_cases h1 : strStartsWith cmd "_" = true
  · rw [if_pos h1]; exact system_event_keys_subset _ _ _ _
  rw [if_neg h1]
  by_cases h2 : strContains cmd "disconnect " = true
  · rw [if_pos h2]; exact system_disconnect_keys_subset _ _ _ _ _
  rw [if_neg h2]
  by_cases h3 : strContains cmd "flgon " = true
  · rw [if_pos h3]; exact system_flgon_keys_subset _ _ _ _ _
  rw [if_neg h3]
  by_cases h4 : strContains cmd "flgoff " = true
  · rw [if_pos h4]; exact system_flgoff_keys_subset _ _ _ _ _
  rw [if_neg h4]
  by_cases h5 : cmd = "loadpermission"
  · rw [if_pos h5]
    cases env.loadPerm with
    | none => exact writemsg_keys_subset _ _ _ _
    | some da => exact writemsg_keys_subset _ _ _ _
  rw [if_neg h5]
  by_cases h6 : cmd = "loadreconnectablepermission"
  · rw [if_pos h6]
    by_cases hr : env.loadRecon = true
    · rw [if_pos hr]; exact writemsg_keys_subset _ _ _ _
    · rw [if_neg hr]; exact writemsg_keys_subset _ _ _ _
  rw [if_neg h6]
  by_cases h7 : cmd = "loadaliases"
  · rw [if_pos h7]
    cases env.loadAliases with
    | none => exact writemsg_keys_subset _ _ _ _
    | some ar => exact writemsg_keys_subset _ _ _ _
  rw [if_neg h7]
  by_cases h8 : cmd = "listaliases"
  · rw [if_pos h8]; exact writemsg_keys_subset _ _ _ _
  rw [if_neg h8]
  by_cases h9 : cmd = "listnodes"
  · rw [if_pos h9]; exact writemsg_keys_subset _ _ _ _
  rw [if_neg h9]
  by_cases h10 : cmd = "getversion"
  · rw [if_pos h10]; exact writemsg_keys_subset _ _ _ _
  rw [if_neg h10]
  by_cases h11 : cmd = "gettime"
  · rw [if_pos h11]; exact writemsg_keys_subset _ _ _ _
  rw [if_neg h11]
  by_cases h12 : cmd = "hello"
  · rw [if_pos h12]; exact writemsg_keys_subset _ _ _ _
  rw [if_neg h12]
  by_cases h13 : cmd = "help"
  · rw [if_pos h13]; exact writemsg_keys_subset _ _ _ _
  rw [if_neg h13]
  by_cases h14 : cmd = "shutdown"
  · rw [if_pos h14]
    by_cases hs : (!st.sdata.shutallow.isEmpty && is_shutdowncmd_allow fromnode st.sdata.shutallow)
        = true
    · rw [if_pos hs]; exact system_shutdown_keys_subset _ _
    · rw [if_neg hs]; exact writemsg_keys_subset _ _ _ _
  rw [if_neg h14]
  exact writemsg_keys_subset _ _ _ _

theorem deliverOrDown_keys_subset (env : Env) (sock : Socket) (fromnode0 tonodes buf : String)
    (st : St) : nlKeys (deliverOrDown env sock fromnode0 tonodes buf st).nodes ⊆ nlKeys st.nodes := by
  unfold deliverOrDown
  dsimp only
  split
  · exact writemsg_keys_subset _ _ _ _
  · split
    · exact writemsg_keys_subset _ _ _ _
    · exact fun x hx => hx

theorem route_keys_subset (env : Env) (node : String) (sock : Socket)
    (fromnode tonodes0 buf : String) (st : St) :
    nlKeys (route env node sock fromnode tonodes0 buf st).nodes ⊆ nlKeys st.nodes := by
  unfold route
  dsimp only
  split
  · split
    · exact writemsg_keys_subset _ _ _ _
    · exact fun x hx => hx
  · split
    · exact system_commands_keys_subset _ _ _ _ _ _
    · exact deliverOrDown_keys_subset _ _ _ _ _ _

theorem sendmes_keys_subset (env : Env) (node : String) (sock : Socket) (msg : String)
    (st : St) : nlKeys (sendmes env node sock msg st).nodes ⊆ nlKeys st.nodes := by
  unfold sendmes
  split
  · exact writemsg_keys_subset _ _ _ _
  · exact route_keys_subset _ _ _ _ _ _ _

/-! ### Claim C1 -/

/-- C1, counterexample: the head `SystemX` differs from `"System"` and the node
`SystemX` is present in the directory, yet the frame `SystemX ping` is handled by the
System command handler (catch-all error reply to the sender) instead of being
delivered to `SystemX` — dispatch is by substring containment, not equality. -/
theorem C1_counterexample :
    (sendmes env0 "A" 0 "SystemX ping" (stOf [("A", 0), ("SystemX", 1)] sdEmpty)).writes
        = [(0, true, "System>A @ping Er: Command is not found or parameter is not enough!\n")] ∧
    ¬ (1, true, "A>SystemX ping\n")
        ∈ (sendmes env0 "A" 0 "SystemX ping" (stOf [("A", 0), ("SystemX", 1)] sdEmpty)).writes := by
  decide

/-- C1 (corrected): for a post-handshake frame that passes the policy filter, after
destination alias resolution the frame is dispatched to the System command handler if
and only if the first dotted segment of the resolved to_address CONTAINS the string
"System" as a substring (`tonode.contains("System")` in `sendmes`); only when it does
not is the head looked up in the node directory (delivery or down-reply). -/
theorem C1_dispatch (env : Env) (node : String) (sock : Socket)
    (fromnode tonodes0 buf : String) (st : St)
    (hden : routeDenied node (resolveAlias st.sdata.aliasreal tonodes0) buf st.sdata = false) :
    (strContains (firstSeg (resolveAlias st.sdata.aliasreal tonodes0)) "System" = true →
      route env node sock fromnode tonodes0 buf st
        = system_commands env node sock fromnode buf st) ∧
    (strContains (firstSeg (resolveAlias st.sdata.aliasreal tonodes0)) "System" = false →
      route env node sock fromnode tonodes0 buf st
        = deliverOrDown env sock fromnode (resolveAlias st.sdata.aliasreal tonodes0) buf st) := by
  constructor <;> intro hc <;>
    · unfold route
      dsimp only
      rw [hden]
      simp [hc]

/-- Witness for C1: concrete dispatch of `SystemX ping` to the System handler. -/
theorem C1_dispatch_witness :
    routeDenied "A"
        (resolveAlias (stOf [("A", 0), ("SystemX", 1)] sdEmpty).sdata.aliasreal "SystemX") "ping"
        (stOf [("A", 0), ("SystemX", 1)] sdEmpty).sdata = false ∧
    strContains (firstSeg (resolveAlias (stOf [("A", 0), ("SystemX", 1)] sdEmpty).sdata.aliasreal
        "SystemX")) "System" = true ∧
    route env0 "A" 0 "A" "SystemX" "ping" (stOf [("A", 0), ("SystemX", 1)] sdEmpty)
        = system_commands env0 "A" 0 "A" "ping" (stOf [("A", 0), ("SystemX", 1)] sdEmpty) :=
  ⟨by decide, by decide,
    (C1_dispatch env0 "A" 0 "A" "SystemX" "ping" (stOf [("A", 0), ("SystemX", 1)] sdEmpty)
      (by decide)).1 (by decide)⟩

/-! ### Claim C3 -/

/-- C3, counterexample: with the catch-all deny rule the event frame `B _ev` is
silently dropped (no writes at all, in particular no delivery to B), while with an
empty deny list the same frame is delivered — the routing outcome of an event-class
frame DOES depend on the contents of cmddeny, refuting the bypass claim. -/
theorem C3_counterexample :
    (sendmes env0 "A" 0 "B _ev" (stOf [("A", 0), ("B", 1)] sdDenyAll)).writes = [] ∧
    (sendmes env0 "A" 0 "B _ev" (stOf [("A", 0), ("B", 1)] sdEmpty)).writes
        = [(1, true, "A>B _ev\n")] := by
  decide

/-- C3 (corrected): event-class frames (payload starting with `_`, i.e. failing
`SEARCHCMD2`) are subject to the allow/deny filter like every non-`@` payload
(`SEARCHCMD1` is `^[^@]`, which matches `_`-payloads); when denied, the frame is
silently dropped — the state is unchanged, so no `Er: Command denied.` reply and no
delivery occur. -/
theorem C3_event_denied (env : Env) (node : String) (sock : Socket)
    (fromnode tonodes0 buf : String) (st : St)
    (hup : searchCmd2 buf = false)
    (hden : routeDenied node (resolveAlias st.sdata.aliasreal tonodes0) buf st.sdata = true) :
    route env node sock fromnode tonodes0 buf st = st := by
  unfold route
  dsimp only
  rw [hden]
  simp [hup]

/-- Witness for C3: the denied event frame `_ev` to `B` leaves the state unchanged. -/
theorem C3_event_denied_witness :
    searchCmd2 "_ev" = false ∧
    routeDenied "A" (resolveAlias (stOf [("A", 0), ("B", 1)] sdDenyAll).sdata.aliasreal "B") "_ev"
        (stOf [("A", 0), ("B", 1)] sdDenyAll).sdata = true ∧
    route env0 "A" 0 "A" "B" "_ev" (stOf [("A", 0), ("B", 1)] sdDenyAll)
        = stOf [("A", 0), ("B", 1)] sdDenyAll :=
  ⟨by decide, by decide,
    C3_event_denied env0 "A" 0 "A" "B" "_ev" (stOf [("A", 0), ("B", 1)] sdDenyAll)
      (by decide) (by decide)⟩

/-! ### Claim C4 -/

/-- C4, counterexample: the sender `A` has the public alias `Alice`
(`realalias` maps A to Alice), so the claim says B receives `Alice>B hi` and
`MessageRouted(Alice, B)` is emitted; the code instead resolves the displayed
originator through `aliasreal` (alias to real), leaving `A` unchanged. -/
theorem C4_counterexample :
    (sendmes env0 "A" 0 "B hi" (stOf [("A", 0), ("B", 1)] sdAlias)).writes
        = [(1, true, "A>B hi\n")] ∧
    ¬ (1, true, "Alice>B hi\n")
        ∈ (sendmes env0 "A" 0 "B hi" (stOf [("A", 0), ("B", 1)] sdAlias)).writes ∧
    (sendmes env0 "A" 0 "B hi" (stOf [("A", 0), ("B", 1)] sdAlias)).events
        = [ServerEvent.messageRouted "A" "B"] := by
  decide

/-- C4 (corrected): for a frame delivered to a target present in the directory, the
displayed originator is the sender's displayed_from resolved once through the
ALIAS-TO-REAL map `aliasreal` (an alias is displayed as its real name; a real name
that merely has a public alias is displayed unchanged); the delivered line is
`<resolved_from>><to_address> <payload>\n` and `MessageRouted(resolved_from,
to_address)` is emitted. -/
theorem C4_delivery (env : Env) (sock : Socket) (fromnode tonodes buf : String) (st : St)
    (tsock : Socket)
    (hdbg : nlGet st.nodes "Debugger" = none)
    (ht : nlGet st.nodes (firstSeg tonodes) = some tsock) :
    (deliverOrDown env sock fromnode tonodes buf st).writes
        = st.writes ++ [(tsock, env.writeOk tsock,
            resolveAlias st.sdata.aliasreal fromnode ++ ">" ++ tonodes ++ " " ++ buf ++ "\n")] ∧
    (deliverOrDown env sock fromnode tonodes buf st).events
        = st.events
          ++ [ServerEvent.messageRouted (resolveAlias st.sdata.aliasreal fromnode) tonodes] ∧
    (deliverOrDown env sock fromnode tonodes buf st).nodes = st.nodes := by
  unfold deliverOrDown
  dsimp only
  rw [ht]
  dsimp only
  refine ⟨?_, ?_, ?_⟩
  · rw [writemsg_writes_of_none env tsock _ st hdbg]
  · rw [writemsg_events]
  · rw [writemsg_nodes_of_none env tsock _ st hdbg]

/-- Witness for C4: delivery of `hi` to `B` from displayed originator `Alice`
(an alias), which is displayed as the real name `A`. -/
theorem C4_delivery_witness :
    nlGet (stOf [("A", 0), ("B", 1)] sdAlias).nodes "Debugger" = none ∧
    nlGet (stOf [("A", 0), ("B", 1)] sdAlias).nodes (firstSeg "B") = some 1 ∧
    (deliverOrDown env0 0 "Alice" "B" "hi" (stOf [("A", 0), ("B", 1)] sdAlias)).writes
        = [(1, true, "A>B hi\n")] := by
  refine ⟨by decide, by decide, ?_⟩
  have h := C4_delivery env0 0 "Alice" "B" "hi" (stOf [("A", 0), ("B", 1)] sdAlias) 1
    (by decide) (by decide)
  rw [h.1]
  decide

/-! ### Claim C8 -/

/-- C8, counterexample: the destination head `SystemZ` is absent from the directory
and the payload `ping` is command-class, so the claim promises the reply
`System>A @ping Er: SystemZ is down.`; because `SystemZ` contains `System` the code
instead dispatches to the System handler, which answers with its catch-all error. -/
theorem C8_counterexample :
    (sendmes env0 "A" 0 "SystemZ ping" (stOf [("A", 0)] sdEmpty)).writes
        = [(0, true, "System>A @ping Er: Command is not found or parameter is not enough!\n")] ∧
    ¬ (0, true, "System>A @ping Er: SystemZ is down.\n")
        ∈ (sendmes env0 "A" 0 "SystemZ ping" (stOf [("A", 0)] sdEmpty)).writes := by
  decide

/-- C8 (corrected): for a frame whose resolved destination head does NOT contain
"System" as a substring (so it reaches the directory lookup) and is absent from the
directory: a payload that does not start with `_` or `@` draws exactly one reply
`System><from> @<payload> Er: <head> is down.\n` to the sender, where `<from>` is
the displayed originator resolved through the alias-to-real map; a payload starting
with `_` or `@` is dropped silently (state unchanged). -/
theorem C8_down (env : Env) (sock : Socket) (fromnode tonodes buf : String) (st : St)
    (hdbg : nlGet st.nodes "Debugger" = none)
    (ht : nlGet st.nodes (firstSeg tonodes) = none) :
    (searchCmd3 buf = false →
      (deliverOrDown env sock fromnode tonodes buf st).writes
          = st.writes ++ [(sock, env.writeOk sock,
              "System>" ++ resolveAlias st.sdata.aliasreal fromnode ++ " @" ++ buf
                ++ " Er: " ++ firstSeg tonodes ++ " is down.\n")] ∧
      (deliverOrDown env sock fromnode tonodes buf st).nodes = st.nodes) ∧
    (searchCmd3 buf = true → deliverOrDown env sock fromnode tonodes buf st = st) := by
  unfold deliverOrDown
  dsimp only
  rw [ht]
  dsimp only
  constructor
  · intro h3
    constructor
    · simp only [h3, Bool.not_false, if_true]
      rw [writemsg_writes_of_none env sock _ st hdbg]
    · simp only [h3, Bool.not_false, if_true]
      rw [writemsg_nodes_of_none env sock _ st hdbg]
  · intro h3
    simp [h3]

/-- Witness for C8: `A ping` to the absent head `Z` draws the down-reply, and the
event payload `_hb` to `Z` is dropped. -/
theorem C8_down_witness :
    nlGet (stOf [("A", 0)] sdEmpty).nodes (firstSeg "Z") = none ∧
    searchCmd3 "ping" = false ∧
    (deliverOrDown env0 0 "A" "Z" "ping" (stOf [("A", 0)] sdEmpty)).writes
        = [(0, true, "System>A @ping Er: Z is down.\n")] ∧
    deliverOrDown env0 0 "A" "Z" "_hb" (stOf [("A", 0)] sdEmpty) = stOf [("A", 0)] sdEmpty := by
  refine ⟨by decide, by decide, ?_, ?_⟩
  · have h := C8_down env0 0 "A" "Z" "ping" (stOf [("A", 0)] sdEmpty) (by decide) (by decide)
    rw [(h.1 (by decide)).1]
    decide
  · exact (C8_down env0 0 "A" "Z" "_hb" (stOf [("A", 0)] sdEmpty) (by decide) (by decide)).2
      (by decide)

/-! ### Claim C9 -/

/-- C9 (confirmed): if the handshake reply does not consist of exactly two
whitespace-separated tokens, the connection is closed with no diagnostic written and
no directory change — `handshakeStep` returns `closed`, shuts the socket down, and
leaves the rest of the state (writes, directory, subscriptions, events) untouched. -/
theorem C9_badHandshake (env : Env) (checks : Checks) (sock : Socket) (rmsg : String)
    (st : St) (h : (splitWhitespace (strTrim rmsg)).length ≠ 2) :
    handshakeStep env checks sock rmsg st
        = (HandshakeOutcome.closed, { st with shutdowns := st.shutdowns ++ [sock] }) := by
  unfold handshakeStep
  by_cases he : rmsg = ""
  · rw [if_pos he]
  · rw [if_neg he]
    unfold addnode
    dsimp only
    rw [if_pos h]

/-- Witness for C9: the one-token reply `abc` is silently closed. -/
theorem C9_badHandshake_witness :
    (splitWhitespace (strTrim "abc")).length ≠ 2 ∧
    handshakeStep env0 checksTrue 3 "abc" (stOf [] sdEmpty)
        = (HandshakeOutcome.closed,
            { stOf [] sdEmpty with shutdowns := (stOf [] sdEmpty).shutdowns ++ [3] }) :=
  ⟨by decide, C9_badHandshake env0 checksTrue 3 "abc" (stOf [] sdEmpty) (by decide)⟩

/-! ### Claim C10 -/

/-- C10 (confirmed): every line sent through `writemsg` (the reply/delivery path) is
also written to the node `Debugger` whenever it is in the directory; if that mirrored
write fails, the Debugger socket is shut down and `Debugger` is removed from the
directory, while the original write to the target is attempted regardless with its
own independent outcome. -/
theorem C10_debugger_mirror (env : Env) (sock : Socket) (msg : String) (st : St) (d : Socket)
    (hd : nlGet st.nodes "Debugger" = some d) :
    (sock, env.writeOk sock, msg) ∈ (writemsg env sock msg st).writes ∧
    (d, env.writeOk d, msg) ∈ (writemsg env sock msg st).writes ∧
    (env.writeOk d = false →
      nlGet (writemsg env sock msg st).nodes "Debugger" = none ∧
      d ∈ (writemsg env sock msg st).shutdowns) := by
  unfold writemsg sendtodebugger
  have hn : nlGet (sendtonode env sock msg st).nodes "Debugger" = some d := by
    rw [sendtonode_nodes]; exact hd
  rw [hn]
  dsimp only
  by_cases hok : env.writeOk d = true
  · rw [if_pos hok]
    refine ⟨?_, ?_, ?_⟩
    · dsimp only
      rw [sendtonode_writes]
      simp
    · dsimp only
      rw [sendtonode_writes]
      simp
    · intro hf
      rw [hok] at hf
      cases hf
  · rw [if_neg hok]
    refine ⟨?_, ?_, ?_⟩
    · dsimp only
      rw [sendtonode_writes]
      simp
    · dsimp only
      rw [sendtonode_writes]
      simp
    · intro _
      constructor
      · dsimp only
        exact nlGet_nlRemove_self _ _
      · dsimp only
        simp

/-- Witness for C10: with a Debugger whose socket write fails, the original write is
attempted, the line is mirrored (and fails), Debugger is removed and shut down. -/
theorem C10_debugger_mirror_witness :
    nlGet (stOf [("A", 0), ("Debugger", 9)] sdEmpty).nodes "Debugger" = some 9 ∧
    ((0, envD.writeOk 0, "x\n")
        ∈ (writemsg envD 0 "x\n" (stOf [("A", 0), ("Debugger", 9)] sdEmpty)).writes ∧
      (9, envD.writeOk 9, "x\n")
        ∈ (writemsg envD 0 "x\n" (stOf [("A", 0), ("Debugger", 9)] sdEmpty)).writes ∧
      (envD.writeOk 9 = false →
        nlGet (writemsg envD 0 "x\n" (stOf [("A", 0), ("Debugger", 9)] sdEmpty)).nodes "Debugger"
            = none ∧
        9 ∈ (writemsg envD 0 "x\n" (stOf [("A", 0), ("Debugger", 9)] sdEmpty)).shutdowns)) :=
  ⟨by decide,
    C10_debugger_mirror envD 0 "x\n" (stOf [("A", 0), ("Debugger", 9)] sdEmpty) 9 (by decide)⟩

/-! ### Claim C7 -/

/-- C7, counterexample: the parameter-not-enough replies of both `flgon` and
`flgoff` are tagged `@disconnect` (copy-paste from `system_disconnect`), not
`@flgon`/`@flgoff` as the claim states. -/
theorem C7_counterexample :
    (sendmes env0 "U" 0 "System flgon " (stOf [("U", 0)] sdEmpty)).writes
        = [(0, true, "System>U @disconnect Er: Parameter is not enough.\n")] ∧
    ¬ (0, true, "System>U @flgon Er: Parameter is not enough.\n")
        ∈ (sendmes env0 "U" 0 "System flgon " (stOf [("U", 0)] sdEmpty)).writes ∧
    (sendmes env0 "U" 0 "System flgoff " (stOf [("U", 0)] sdEmpty)).writes
        = [(0, true, "System>U @disconnect Er: Parameter is not enough.\n")] := by
  decide

/-- C7 (corrected): System replies keep the shape `System><displayed_from> @<tag>
<text>\n`, but the tag of the parameter-not-enough replies of `flgon` and `flgoff`
is `@disconnect` in both cases: whenever the argument does not start with a name
character, both handlers reply exactly
`System><from> @disconnect Er: Parameter is not enough.\n` to the sender. -/
theorem C7_param_reply (env : Env) (sock : Socket) (fromnode cmd : String) (st : St)
    (hp : searchParamIsMatch cmd = false) (hdbg : nlGet st.nodes "Debugger" = none) :
    (system_flgon env sock fromnode cmd st).writes
        = st.writes ++ [(sock, env.writeOk sock,
            "System>" ++ fromnode ++ " @disconnect Er: Parameter is not enough.\n")] ∧
    (system_flgoff env sock fromnode cmd st).writes
        = st.writes ++ [(sock, env.writeOk sock,
            "System>" ++ fromnode ++ " @disconnect Er: Parameter is not enough.\n")] := by
  constructor
  · unfold system_flgon
    simp only [hp, Bool.not_false, if_true]
    rw [writemsg_writes_of_none env sock _ st hdbg]
  · unfold system_flgoff
    simp only [hp, Bool.not_false, if_true]
    rw [writemsg_writes_of_none env sock _ st hdbg]

/-- Witness for C7: the empty `flgon`/`flgoff` argument draws the
`@disconnect`-tagged parameter error. -/
theorem C7_param_reply_witness :
    searchParamIsMatch "" = false ∧
    (system_flgon env0 0 "U" "" (stOf [("U", 0)] sdEmpty)).writes
        = [] ++ [(0, env0.writeOk 0, "System>" ++ "U"
            ++ " @disconnect Er: Parameter is not enough.\n")] ∧
    (system_flgoff env0 0 "U" "" (stOf [("U", 0)] sdEmpty)).writes
        = [] ++ [(0, env0.writeOk 0, "System>" ++ "U"
            ++ " @disconnect Er: Parameter is not enough.\n")] :=
  ⟨by decide,
    (C7_param_reply env0 0 "U" "" (stOf [("U", 0)] sdEmpty) (by decide) (by decide)).1,
    (C7_param_reply env0 0 "U" "" (stOf [("U", 0)] sdEmpty) (by decide) (by decide)).2⟩

/-! ### Claim C5 -/

/-- C5, counterexample: a reachable state in which `System` IS a subscriber key of
the subscription table — the connected node `A` sends the single frame
`System>System flgon X` (a spoofed from-override), and `system_flgon` registers the
displayed originator `System` as subscriber. -/
theorem C5_counterexample :
    ftGet (sendmes env0 "A" 0 "System>System flgon X"
        (stOf [("A", 0)] sdEmpty)).sdata.nodes_flgon "System" = some ["X"] := by
  decide

/-- C5 (corrected): frame routing never adds a key to the node directory (the
directory's key set after `sendmes` is a subset of what it was, so routing can never
insert `System` — or anything else — into the directory), BUT `System` can become a
subscriber key: a `flgon` invocation whose displayed originator is the spoofed
override `System` registers `System` in the subscription table. -/
theorem C5_system_keys :
    (∀ (env : Env) (node : String) (sock : Socket) (msg : String) (st : St),
      nlKeys (sendmes env node sock msg st).nodes ⊆ nlKeys st.nodes) ∧
    (∀ (env : Env) (sock : Socket) (cmd : String) (st : St),
      searchParamIsMatch cmd = true →
      ftGet st.sdata.nodes_flgon "System" = none →
      ftGet (system_flgon env sock "System" cmd st).sdata.nodes_flgon "System" = some [cmd]) := by
  constructor
  · exact sendmes_keys_subset
  · intro env sock cmd st hp hn
    unfold system_flgon
    simp only [hp, Bool.not_true, Bool.false_eq_true, if_false]
    rw [hn]
    dsimp only
    rw [writemsg_sdata]
    simp [ftGet]

/-- Witness for C5: routing one frame shrinks (here: preserves) the directory keys,
and a `flgon` with displayed originator `System` registers the key `System`. -/
theorem C5_system_keys_witness :
    nlKeys (sendmes env0 "A" 0 "B hi" (stOf [("A", 0)] sdEmpty)).nodes
        ⊆ nlKeys (stOf [("A", 0)] sdEmpty).nodes ∧
    (searchParamIsMatch "X" = true ∧
      ftGet (system_flgon env0 0 "System" "X" (stOf [("A", 0)] sdEmpty)).sdata.nodes_flgon
          "System" = some ["X"]) :=
  ⟨C5_system_keys.1 env0 "A" 0 "B hi" (stOf [("A", 0)] sdEmpty),
    by decide,
    C5_system_keys.2 env0 0 "X" (stOf [("A", 0)] sdEmpty) (by decide) (by decide)⟩

/-! ### Claim C6 -/

theorem startsWith_ne (p cmd v : String) (h0 : strStartsWith cmd p = true)
    (hv : strStartsWith v p = false) : cmd ≠ v := by
  intro h
  rw [h] at h0
  rw [h0] at hv
  cases hv

theorem listPre_hello_not_us (l : List Char)
    (h0 : listPre ['h', 'e', 'l', 'l', 'o', ' '] l = true) : listPre ['_'] l = false := by
  cases l with
  | nil => simp [listPre] at h0
  | cons c cs =>
    simp only [listPre, Bool.and_eq_true, decide_eq_true_eq] at h0
    rw [← h0.1]
    rfl

theorem startsWithHello_not_us (cmd : String) (h0 : strStartsWith cmd "hello " = true) :
    strStartsWith cmd "_" = false := by
  unfold strStartsWith at h0 ⊢
  rw [show ("hello " : String).data = ['h', 'e', 'l', 'l', 'o', ' '] from rfl] at h0
  rw [show ("_" : String).data = ['_'] from rfl]
  exact listPre_hello_not_us cmd.data h0

/-- C6, counterexample: the argument-less verb with trailing text `hello x` is NOT
executed as `hello` (the claim says it is) but draws the catch-all error; conversely
`disconnect` occurring at a NON-initial position (`x disconnect y`) IS executed as
the `disconnect` verb (with argument `x y`). -/
theorem C6_counterexample :
    (system_commands env0 "A" 0 "A" "hello x" (stOf [("A", 0)] sdEmpty)).writes
        = [(0, true, "System>A @hello x Er: Command is not found or parameter is not enough!\n")] ∧
    ¬ (0, true, "System>A @hello Nice to meet you.\n")
        ∈ (system_commands env0 "A" 0 "A" "hello x" (stOf [("A", 0)] sdEmpty)).writes ∧
    (system_commands env0 "A" 0 "A" "x disconnect y" (stOf [("A", 0)] sdEmpty)).writes
        = [(0, true, "System>A @disconnect Er: Node x y is down.\n")] := by
  decide

/-- C6 (corrected): the System handler does not tokenize the payload.
`disconnect`/`flgon`/`flgoff` are recognized by searching for the text `<verb> `
ANYWHERE in a non-event payload (every occurrence of that text is deleted to form the
argument); every other verb is recognized only when the payload equals the verb
EXACTLY — `hello` alone answers `Nice to meet you.`, while `hello ` followed by
anything draws the catch-all `Command is not found` error. -/
theorem C6_verbs :
    (∀ (env : Env) (node : String) (sock : Socket) (fromnode cmd : String) (st : St),
      strStartsWith cmd "_" = false → strContains cmd "disconnect " = true →
      system_commands env node sock fromnode cmd st
        = system_disconnect env sock fromnode (replaceAll cmd "disconnect " "") st) ∧
    (∀ (env : Env) (node : String) (sock : Socket) (fromnode : String) (st : St),
      system_commands env node sock fromnode "hello" st
        = writemsg env sock ("System>" ++ fromnode ++ " @hello Nice to meet you.\n") st) ∧
    (∀ (env : Env) (node : String) (sock : Socket) (fromnode cmd : String) (st : St),
      strStartsWith cmd "hello " = true → strContains cmd "disconnect " = false →
      strContains cmd "flgon " = false → strContains cmd "flgoff " = false →
      system_commands env node sock fromnode cmd st
        = writemsg env sock ("System>" ++ fromnode ++ " @" ++ cmd
            ++ " Er: Command is not found or parameter is not enough!\n") st) := by
  refine ⟨?_, ?_, ?_⟩
  · intro env node sock fromnode cmd st h1 h2
    unfold system_commands
    rw [if_neg (by simp [h1]), if_pos h2]
  · intro env node sock fromnode st
    have e0 : strStartsWith "hello" "_" = false := by decide
    have e1 : strContains "hello" "disconnect " = false := by decide
    have e2 : strContains "hello" "flgon " = false := by decide
    have e3 : strContains "hello" "flgoff " = false := by decide
    have n1 : ("hello" : String) ≠ "loadpermission" := by decide
    have n2 : ("hello" : String) ≠ "loadreconnectablepermission" := by decide
    have n3 : ("hello" : String) ≠ "loadaliases" := by decide
    have n4 : ("hello" : String) ≠ "listaliases" := by decide
    have n5 : ("hello" : String) ≠ "listnodes" := by decide
    have n6 : ("hello" : String) ≠ "getversion" := by decide
    have n7 : ("hello" : String) ≠ "gettime" := by decide
    simp [system_commands, e0, e1, e2, e3, n1, n2, n3, n4, n5, n6, n7]
  · intro env node sock fromnode cmd st h0 hd hg hf
    have e0 : strStartsWith cmd "_" = false := startsWithHello_not_us cmd h0
    have n1 : cmd ≠ "loadpermission" := startsWith_ne "hello " cmd _ h0 (by decide)
    have n2 : cmd ≠ "loadreconnectablepermission" := startsWith_ne "hello " cmd _ h0 (by decide)
    have n3 : cmd ≠ "loadaliases" := startsWith_ne "hello " cmd _ h0 (by decide)
    have n4 : cmd ≠ "listaliases" := startsWith_ne "hello " cmd _ h0 (by decide)
    have n5 : cmd ≠ "listnodes" := startsWith_ne "hello " cmd _ h0 (by decide)
    have n6 : cmd ≠ "getversion" := startsWith_ne "hello " cmd _ h0 (by decide)
    have n7 : cmd ≠ "gettime" := startsWith_ne "hello " cmd _ h0 (by decide)
    have n8 : cmd ≠ "hello" := startsWith_ne "hello " cmd _ h0 (by decide)
    have n9 : cmd ≠ "help" := startsWith_ne "hello " cmd _ h0 (by decide)
    have n10 : cmd ≠ "shutdown" := startsWith_ne "hello " cmd _ h0 (by decide)
    simp [system_commands, e0, hd, hg, hf, n1, n2, n3, n4, n5, n6, n7, n8, n9, n10]

/-- Witness for C6: `hello x` draws the catch-all error via the exact-match rule, at
a concrete state. -/
theorem C6_verbs_witness :
    strStartsWith "hello x" "hello " = true ∧
    system_commands env0 "A" 0 "A" "hello x" (stOf [("A", 0)] sdEmpty)
        = writemsg env0 0 ("System>" ++ "A" ++ " @" ++ "hello x"
            ++ " Er: Command is not found or parameter is not enough!\n")
          (stOf [("A", 0)] sdEmpty) :=
  ⟨by decide,
    C6_verbs.2.2 env0 "A" 0 "A" "hello x" (stOf [("A", 0)] sdEmpty)
      (by decide) (by decide) (by decide) (by decide)⟩

/-! ### Claim C2 -/

/-- C2, counterexample: subscriber `U` watches `A.temp` (as in the spec's own
scenario) and node `A` completes the handshake; the claim promises `U` receives
`A>A.temp _Connected\n`, but the code matches the new node's name against the watched
SET by exact membership (`key_val.1.contains(&node)`), `"A"` is not an element of
`{"A.temp"}`, so no `_Connected` line is delivered at all — only the `Ok:` line is
written. -/
theorem C2_counterexample :
    (addnode env0 checksTrue 7 "A key"
        (stOf [("U", 5)] { sdEmpty with nodes_flgon := [("U", ["A.temp"])] })).1 = some "A" ∧
    (addnode env0 checksTrue 7 "A key"
        (stOf [("U", 5)] { sdEmpty with nodes_flgon := [("U", ["A.temp"])] })).2.writes
        = [(7, true, "System>A Ok:\n")] ∧
    ¬ (5, true, "A>A.temp _Connected\n")
        ∈ (addnode env0 checksTrue 7 "A key"
            (stOf [("U", 5)] { sdEmpty with nodes_flgon := [("U", ["A.temp"])] })).2.writes := by
  decide

/-- C2 (corrected): on handshake success the server writes `System><name> Ok:\n` to
the new connection, inserts the node into the directory, emits
`NodeConnected(name)`, and then — with the name resolved once through `realalias` —
for every subscription entry whose watched SET contains that resolved name as an
exact element, delivers `<resolved-name>><subscriber> _Connected\n` to the node named
by the SUBSCRIBER's first dotted segment (so after `System flgon A.temp` the
subscriber receives nothing when `A` connects, while after `System flgon A` it
receives `A><subscriber> _Connected\n`). -/
theorem C2_connected (env : Env) (checks : Checks) (sock : Socket) (node idmess : String)
    (st : St) (u : String) (ws : List String) (usock : Socket)
    (hdbg : nlGet st.nodes "Debugger" = none)
    (hnd : node ≠ "Debugger")
    (hh : checks.hostOk node = true) (hk : checks.keyOk node idmess = true)
    (hmem : (u, ws) ∈ st.sdata.nodes_flgon)
    (hc : ws.contains (resolveAlias st.sdata.realalias node) = true)
    (hs : nlGet (nlInsert st.nodes node sock) (firstSeg u) = some usock) :
    (addnodeChecks env checks sock node idmess st).1
        = some (resolveAlias st.sdata.realalias node) ∧
    (sock, env.writeOk sock, "System>" ++ node ++ " Ok:\n")
        ∈ (addnodeChecks env checks sock node idmess st).2.writes ∧
    nlGet (addnodeChecks env checks sock node idmess st).2.nodes node = some sock ∧
    ServerEvent.nodeConnected node ∈ (addnodeChecks env checks sock node idmess st).2.events ∧
    (usock, env.writeOk usock,
        resolveAlias st.sdata.realalias node ++ ">" ++ u ++ " " ++ "_Connected" ++ "\n")
        ∈ (addnodeChecks env checks sock node idmess st).2.writes := by
  have hWsdata := writemsg_sdata env sock ("System>" ++ node ++ " Ok:\n") st
  have hWnodes := writemsg_nodes_of_none env sock ("System>" ++ node ++ " Ok:\n") st hdbg
  have hWwrites := writemsg_writes_of_none env sock ("System>" ++ node ++ " Ok:\n") st hdbg
  have hWevents := writemsg_events env sock ("System>" ++ node ++ " Ok:\n") st
  unfold addnodeChecks
  rw [hh, if_neg (by decide : ¬ ((!true) = true))]
  rw [hk, if_neg (by decide : ¬ ((!true) = true))]
  dsimp only
  have hdbg3 : nlGet (nlInsert (writemsg env sock ("System>" ++ node ++ " Ok:\n") st).nodes node
      sock) "Debugger" = none := by
    rw [nlGet_nlInsert_ne _ _ _ _ (fun hh2 => hnd hh2.symm), hWnodes]
    exact hdbg
  refine ⟨?_, ?_, ?_, ?_, ?_⟩
  · rw [hWsdata]
  · refine flgonLoopFull_writes_mono _ _ _ _ _ _ ?_
    dsimp only
    rw [hWwrites]
    simp
  · rw [flgonLoopFull_nodes_of_none _ _ _ _ _ hdbg3]
    dsimp only
    rw [hWnodes]
    exact nlGet_nlInsert_self st.nodes node sock
  · rw [flgonLoopFull_events]
    dsimp only
    rw [hWevents]
    simp
  · rw [hWsdata]
    refine flgonLoopFull_mem _ _ _ _ _ u ws usock ?_ ?_ ?_ ?_
    · dsimp only
      exact hdbg3
    · exact hmem
    · exact hc
    · dsimp only
      rw [hWnodes]
      exact hs

/-- Witness for C2: `U` watches exactly `A`; when `A` connects, `U` (socket 5)
receives `A>U _Connected\n` after the `Ok:` line. -/
theorem C2_connected_witness :
    checksTrue.hostOk "A" = true ∧
    (["A"] : List String).contains (resolveAlias sdEmpty.realalias "A") = true ∧
    (7, env0.writeOk 7, "System>" ++ "A" ++ " Ok:\n")
        ∈ (addnodeChecks env0 checksTrue 7 "A" "key"
            (stOf [("U", 5)] { sdEmpty with nodes_flgon := [("U", ["A"])] })).2.writes ∧
    (5, env0.writeOk 5,
        resolveAlias (stOf [("U", 5)]
            { sdEmpty with nodes_flgon := [("U", ["A"])] }).sdata.realalias "A"
          ++ ">" ++ "U" ++ " " ++ "_Connected" ++ "\n")
        ∈ (addnodeChecks env0 checksTrue 7 "A" "key"
            (stOf [("U", 5)] { sdEmpty with nodes_flgon := [("U", ["A"])] })).2.writes := by
  have h := C2_connected env0 checksTrue 7 "A" "key"
    (stOf [("U", 5)] { sdEmpty with nodes_flgon := [("U", ["A"])] }) "U" ["A"] 5
    (by decide) (by decide) (by decide) (by decide) (by decide) (by decide) (by decide)
  exact ⟨by decide, by decide, h.2.1, h.2.2.2.2⟩

end Stars
